import Mathlib

/-!
Verification development for the DriftQ FastAPI + Next.js starter web UI
(`web/app/page.tsx`): the run observer and demo orchestrator.

The embedding below translates the client-side logic of `page.tsx` into
executable Lean definitions:

* JSON values are modelled by the inductive `DriftQ.JSONVal`; an `EventItem`
  (`Record<string, JSONValue>` in the source) is its field list.
* The React component state (`useState` hooks plus the mirror refs used in
  async callbacks) is collected in one record `DriftQ.UIState`.  The ref and
  its mirrored state variable are always written together in the source, so
  one field models both.  `autoFetchCount` is an instrumentation field that
  counts how many times the SSE handler fires `void fetchDlq(id)`; no source
  code reads it.
* Network effects are modelled by passing the outcome of the HTTP call
  (`FetchOutcome`, `ReplayOutcome`) to the state-transition function that the
  source runs once the response arrives.
* `waitFor` is modelled with the condition and fail-fast predicate given as
  functions of the iteration index (the value they would return on the n-th
  tick); elapsed wall-clock time at iteration n is n * tickMs, since the loop
  sleeps tickMs once per iteration.  The fuel argument bounds the recursion;
  `none` means the fuel ran out before the loop exited (which cannot happen
  for the fuel chosen in `waitFor` when tickMs ≥ 1).
-/

namespace DriftQ

/-- JSON values as produced by `JSON.parse` (source type `JSONValue`). -/
inductive JSONVal where
  | jnull
  | jbool (b : Bool)
  | jnum (n : Int)
  | jstr (s : String)
  | jarr (elems : List JSONVal)
  | jobj (fields : List (String × JSONVal))
deriving Repr

/-- `EventItem = Record<string, JSONValue>`: the field list of a JSON object. -/
abbrev EventItem := List (String × JSONVal)

/-- Field lookup on an event object. -/
def getField (e : EventItem) (k : String) : Option JSONVal :=
  (List.find? (fun p => p.1 == k) e).map (fun p => p.2)

/-- Source `eventType`: `typeof e.type === "string" ? e.type : "event"`. -/
def eventType (e : EventItem) : String :=
  match getField e "type" with
  | some (JSONVal.jstr s) => s
  | _ => "event"

/-- Source `isDlqSignal`. -/
def isDlqSignal (e : EventItem) : Bool :=
  let t := eventType e
  t == "dlq.available" || t == "run.dlq" || t == "runs.dlq"

/-- Source `DemoMode`. -/
inductive DemoMode where
  | idle
  | running
  | done
  | error
deriving Repr, DecidableEq

/-- Source `DemoSteps`. -/
structure DemoSteps where
  fail : Bool
  dlq : Bool
  replay : Bool
  success : Bool
deriving Repr, DecidableEq

/-- The four keys of `DemoSteps` (`keyof DemoSteps`). -/
inductive StepKey where
  | fail
  | dlq
  | replay
  | success
deriving Repr, DecidableEq

/-- Read one step flag. -/
def stepGet (s : DemoSteps) : StepKey → Bool
  | StepKey.fail => s.fail
  | StepKey.dlq => s.dlq
  | StepKey.replay => s.replay
  | StepKey.success => s.success

/-- Source `markDemoStep`: `setDemoSteps((s) => (s[step] ? s : { ...s, [step]: true }))`. -/
def markDemoStep (s : DemoSteps) : StepKey → DemoSteps
  | StepKey.fail => if s.fail then s else { s with fail := true }
  | StepKey.dlq => if s.dlq then s else { s with dlq := true }
  | StepKey.replay => if s.replay then s else { s with replay := true }
  | StepKey.success => if s.success then s else { s with success := true }

/-- The component state of `Home` (the `useState` hooks touched by the
observer/orchestrator logic, with each mirror ref folded into its state
variable, and `sseOpen` modelling whether `esRef.current` is a live
`EventSource`).  `autoFetchCount` instruments the number of automatic
`void fetchDlq(id)` calls fired by the SSE handler. -/
structure UIState where
  events : List EventItem
  runId : String
  status : String
  typeFilter : String
  query : String
  dlqRecord : Option EventItem
  dlqStatus : String
  dlqAvailable : Bool
  dlqAutoFetched : Bool
  dlqResolved : Bool
  showDlqDetails : Bool
  demoMode : DemoMode
  demoSteps : DemoSteps
  demoRunId : String
  demoError : String
  sseOpen : Bool
  autoFetchCount : Nat
deriving Repr

/-- Source `resetAll` (lines 171-198): stop SSE and clear everything. -/
def resetAll (s : UIState) : UIState :=
  { s with
    sseOpen := false
    events := []
    runId := ""
    status := "idle"
    typeFilter := "all"
    query := ""
    dlqRecord := none
    dlqStatus := ""
    dlqAvailable := false
    dlqAutoFetched := false
    dlqResolved := false
    showDlqDetails := true
    demoMode := DemoMode.idle
    demoError := ""
    demoSteps := { fail := false, dlq := false, replay := false, success := false }
    demoRunId := "" }

/-- Source `hasEvent`. -/
def hasEvent (log : List EventItem) (t : String) : Bool :=
  log.any (fun e => eventType e == t)

/-- Source `hasAnyEvent`. -/
def hasAnyEvent (log : List EventItem) (types : List String) : Bool :=
  log.any (fun e => types.contains (eventType e))

/-- Source `hasDlqForReplaySeq`: a DLQ signal whose `replay_seq` field is a
number equal to `seq`. -/
def hasDlqForReplaySeq (log : List EventItem) (seq : Int) : Bool :=
  log.any (fun e =>
    isDlqSignal e &&
      match getField e "replay_seq" with
      | some (JSONVal.jnum n) => n == seq
      | _ => false)

/-- Outcome of the `fetch` of the DLQ endpoint, as seen by the code that
consumes the response: `ok` carries the parsed JSON body, `notOk` the HTTP
status and response text, `netError` a thrown network exception. -/
inductive FetchOutcome where
  | ok (record : EventItem)
  | notOk (code : Nat) (body : String)
  | netError
deriving Repr

/-- Source `fetchDlq` (lines 239-276), as the state transition applied once
the response outcome is known; returns the new state and the boolean the
function returns.  `rid` is `targetRunId ?? runId` already resolved. -/
def fetchDlq (s : UIState) (rid : String) (outcome : FetchOutcome) : UIState × Bool :=
  if rid == "" then
    (s, false)
  else
    let s := { s with dlqStatus := "loading..." }
    match outcome with
    | FetchOutcome.notOk code body =>
        let txt := body.trim
        let msg := if txt == "" then
            "No DLQ (" ++ toString code ++ ")"
          else
            "No DLQ (" ++ toString code ++ "): " ++ txt
        ({ s with dlqRecord := none, dlqStatus := msg }, false)
    | FetchOutcome.ok data =>
        ({ s with
            dlqRecord := some data
            dlqStatus := "✅ loaded"
            dlqAvailable := true
            showDlqDetails := true }, true)
    | FetchOutcome.netError =>
        ({ s with dlqRecord := none, dlqStatus := "❌ failed to fetch" }, false)

/-- Source `connectSSE` (lines 278-285), synchronous part: stop any previous
stream, set status, clear the auto-fetch marker, open the new stream. -/
def connectSSE (s : UIState) : UIState :=
  { s with
    sseOpen := true
    status := "connecting SSE..."
    dlqAutoFetched := false }

/-- `es.onmessage`, first section: append the parsed event and set status. -/
def appendEvt (evt : EventItem) (s : UIState) : UIState :=
  { s with events := s.events ++ [evt], status := "streaming" }

/-- `es.onmessage`, "Step 1 (fail)" section. -/
def handleFailMark (evt : EventItem) (s : UIState) : UIState :=
  if eventType evt == "run.attempt_failed" || eventType evt == "run.failed" || isDlqSignal evt then
    { s with demoSteps := markDemoStep s.demoSteps StepKey.fail }
  else
    s

/-- `es.onmessage`, "Step 2 (dlq)" section.  The `void fetchDlq(id)` call is
asynchronous; its later state updates are modelled by the separate `fetchDlq`
transition, and `autoFetchCount` records that the call was fired. -/
def handleDlq (evt : EventItem) (s : UIState) : UIState :=
  if isDlqSignal evt then
    let s1 := { s with
      dlqAvailable := true
      dlqStatus := if s.dlqStatus == "" then "⚠️ DLQ available" else s.dlqStatus
      demoSteps := markDemoStep s.demoSteps StepKey.dlq }
    if s1.dlqAutoFetched then
      s1
    else
      { s1 with dlqAutoFetched := true, autoFetchCount := s1.autoFetchCount + 1 }
  else
    s

/-- `es.onmessage`, "Step 3 (replay)" section. -/
def handleReplayMark (evt : EventItem) (s : UIState) : UIState :=
  if eventType evt == "run.replay_requested" || eventType evt == "ui.replay.fix_applied" then
    { s with demoSteps := markDemoStep s.demoSteps StepKey.replay }
  else
    s

/-- `es.onmessage`, "Step 4 (success)" section (`demoModeRef.current` is the
`demoMode` field). -/
def handleSuccess (evt : EventItem) (s : UIState) : UIState :=
  if eventType evt == "run.succeeded" then
    let s1 := { s with demoSteps := markDemoStep s.demoSteps StepKey.success }
    let s2 := if s1.demoMode != DemoMode.idle then
        { s1 with dlqResolved := true, showDlqDetails := false }
      else
        s1
    if s2.demoMode == DemoMode.running then
      { s2 with demoMode := DemoMode.done, status := "✅ demo complete" }
    else
      s2
  else
    s

/-- The raw payload of one inbound SSE message after `JSON.parse`:
`none` models a payload on which `JSON.parse` threw. -/
abbrev RawMsg := Option JSONVal

/-- The guard `parsed && typeof parsed === "object" && !Array.isArray(parsed)`:
only a (non-null, non-array) JSON object yields an `EventItem`. -/
def toObjEvent : RawMsg → Option EventItem
  | some (JSONVal.jobj fields) => some fields
  | _ => none

/-- Source `es.onmessage` (lines 287-345): parse, filter, append, then run
the four demo-step sections; anything that is not a plain object (parse
error, primitive, `null`, array) is ignored. -/
def onMessage (s : UIState) (raw : RawMsg) : UIState :=
  match toObjEvent raw with
  | some evt =>
      handleSuccess evt (handleReplayMark evt (handleDlq evt (handleFailMark evt (appendEvt evt s))))
  | none => s

/-- Deliver a list of SSE messages in arrival order. -/
def processMsgs (s : UIState) (msgs : List RawMsg) : UIState :=
  msgs.foldl onMessage s

/-- A message that carries a dead-letter signal (a parsed object event
satisfying `isDlqSignal`). -/
def dlqSignalMsg (m : RawMsg) : Bool :=
  match toObjEvent m with
  | some evt => isDlqSignal evt
  | none => false

/-- Result of a `waitFor` call: resolved, rejected by the fail-fast
predicate with its message, or rejected by the timeout check. -/
inductive WaitOutcome where
  | resolved
  | failFast (msg : String)
  | timeout
deriving Repr, DecidableEq

/-- The `Error.message` carried by each outcome (`new Error(ff)` /
`new Error("timeout")`); `none` for a resolution. -/
def waitErrMsg : WaitOutcome → Option String
  | WaitOutcome.resolved => none
  | WaitOutcome.failFast m => some m
  | WaitOutcome.timeout => some "timeout"

/-- The loop body of source `waitFor` (lines 39-58).  `cond n` and `ff n` are
the values the condition and fail-fast predicate return on iteration `n`
(`ff n = ""` models the falsy returns `"" | null | false`).  Elapsed time at
iteration `n` is `n * tickMs`.  The second result component counts how many
times `cond` was evaluated.  `fuel` bounds the recursion. -/
def waitForAux (cond : Nat → Bool) (ff : Nat → String) (timeoutMs tickMs : Nat) :
    Nat → Nat → Option (WaitOutcome × Nat)
  | 0, _ => none
  | fuel + 1, n =>
    if ff n != "" then
      some (WaitOutcome.failFast (ff n), n)
    else if cond n then
      some (WaitOutcome.resolved, n + 1)
    else if n * tickMs > timeoutMs then
      some (WaitOutcome.timeout, n + 1)
    else
      waitForAux cond ff timeoutMs tickMs fuel (n + 1)

/-- Source `waitFor`: run the loop with enough fuel to reach the timeout
check that fires (`timeoutMs / tickMs + 2` iterations suffice when
`tickMs ≥ 1`). -/
def waitFor (cond : Nat → Bool) (timeoutMs tickMs : Nat) (ff : Nat → String) :
    Option (WaitOutcome × Nat) :=
  waitForAux cond ff timeoutMs tickMs (timeoutMs / tickMs + 2) 0

/-- Outcome of the replay `fetch`, as seen by `replayRunFix` once the call
returns: success, non-OK response, or a thrown exception carrying
`(err as Error)?.message` (`none` when the message is absent). -/
inductive ReplayOutcome where
  | ok
  | notOk (code : Nat) (body : String)
  | netError (msg : Option String)
deriving Repr, DecidableEq

/-- Source `replayRunFix` (lines 410-450) as the state transition applied
once the outcome of the replay request is known; `rid` is
`targetRunId ?? runId` already resolved, `now` is `Date.now()`. -/
def replayRunFix (s : UIState) (rid : String) (now : Int) (outcome : ReplayOutcome) : UIState :=
  if rid == "" then
    s
  else
    match outcome with
    | ReplayOutcome.notOk code body =>
        { s with status := "replay failed: " ++ toString code ++ " " ++ body }
    | ReplayOutcome.netError msg =>
        { s with status := "replay failed: " ++ (msg.getD "unknown error") }
    | ReplayOutcome.ok =>
        let uiEvt : EventItem :=
          [("ts", JSONVal.jnum now),
           ("type", JSONVal.jstr "ui.replay.fix_applied"),
           ("run_id", JSONVal.jstr rid),
           ("fail_at", JSONVal.jnull),
           ("note", JSONVal.jstr "Replay requested (fix applied ✅)")]
        { s with
            events := s.events ++ [uiEvt]
            status := "replay requested (fix applied)"
            demoSteps := markDemoStep s.demoSteps StepKey.replay }

/-- Source `runTwoMinuteDemo` entry (lines 489-499): re-entry guard and
initial resets. -/
def demoStart (s : UIState) : UIState :=
  if s.demoMode == DemoMode.running then
    s
  else
    { s with
        demoMode := DemoMode.running
        demoError := ""
        demoSteps := { fail := false, dlq := false, replay := false, success := false }
        dlqResolved := false
        showDlqDetails := true }

/-- The condition of the step-3 wait of `runTwoMinuteDemo` (lines 510-514):
`hasAnyEvent(["run.attempt_failed", "run.failed", "run.dlq", "runs.dlq"])`. -/
def demoFailWaitCond (log : List EventItem) : Bool :=
  hasAnyEvent log ["run.attempt_failed", "run.failed", "run.dlq", "runs.dlq"]

/-- One evaluation of the condition of the step-4 wait of `runTwoMinuteDemo`
(lines 518-549): short-circuit on the refs, else try a direct DLQ fetch with
outcome `outcome`; returns the new state and the value of the condition. -/
def demoDlqWaitCondEval (s : UIState) (outcome : FetchOutcome) : UIState × Bool :=
  if s.dlqAvailable then
    (s, true)
  else if s.dlqRecord.isSome then
    (s, true)
  else
    match outcome with
    | FetchOutcome.ok data =>
        ({ s with
            dlqRecord := some data
            dlqStatus := "✅ loaded"
            dlqAvailable := true }, true)
    | _ => (s, false)

/-- `markDemoStep` lifted to the component state (the own
`markDemoStep(...)` calls between waits). -/
def markStep (s : UIState) (k : StepKey) : UIState :=
  { s with demoSteps := markDemoStep s.demoSteps k }

/-- The fail-fast message of the step-6 wait (line 563). -/
def demoFailFastMsg : String :=
  "Replay still DLQ" ++ String.singleton (Char.ofNat 39) ++
    "d (fix not applied). Make sure backend replay accepts fail_at override."

/-- The step-6 wait of `runTwoMinuteDemo` (lines 556-568): wait for
`run.succeeded`, failing fast when a DLQ signal tagged `replay_seq = 1`
exists.  `logs n` is the event log (`eventsRef.current`) at tick `n`. -/
def demoSuccessWait (logs : Nat → List EventItem) : Option (WaitOutcome × Nat) :=
  waitFor (fun n => hasEvent (logs n) "run.succeeded") 90000 500
    (fun n => if hasDlqForReplaySeq (logs n) 1 then demoFailFastMsg else "")

/-- The `catch` handler of `runTwoMinuteDemo` (lines 573-582), applied to the
`Error.message` of the rejection. -/
def demoCatch (s : UIState) (errMsg : String) : UIState :=
  let msg := if errMsg == "timeout" then
      "Timed out waiting for DLQ/success (is worker + API running?)"
    else
      errMsg
  { s with
      demoMode := DemoMode.error
      demoError := msg
      status := "❌ demo failed: " ++ msg }

/-- An initial component state (the `useState` initial values). -/
def initState : UIState :=
  { events := []
    runId := ""
    status := "idle"
    typeFilter := "all"
    query := ""
    dlqRecord := none
    dlqStatus := ""
    dlqAvailable := false
    dlqAutoFetched := false
    dlqResolved := false
    showDlqDetails := true
    demoMode := DemoMode.idle
    demoSteps := { fail := false, dlq := false, replay := false, success := false }
    demoRunId := ""
    demoError := ""
    sseOpen := false
    autoFetchCount := 0 }

/-! ## Step-flag monotonicity -/

theorem markDemoStep_mono (s : DemoSteps) (k k' : StepKey) (h : stepGet s k = true) :
    stepGet (markDemoStep s k') k = true := by
  cases k' <;> cases k <;>
    simp only [markDemoStep, stepGet] at h ⊢ <;>
    split <;> simp_all [stepGet]

theorem handleFailMark_steps_mono (evt : EventItem) (s : UIState) (k : StepKey)
    (h : stepGet s.demoSteps k = true) :
    stepGet (handleFailMark evt s).demoSteps k = true := by
  unfold handleFailMark
  split
  · exact markDemoStep_mono _ _ _ h
  · exact h

theorem handleDlq_steps_mono (evt : EventItem) (s : UIState) (k : StepKey)
    (h : stepGet s.demoSteps k = true) :
    stepGet (handleDlq evt s).demoSteps k = true := by
  unfold handleDlq
  dsimp only
  split
  · split
    · exact markDemoStep_mono _ _ _ h
    · exact markDemoStep_mono _ _ _ h
  · exact h

theorem handleReplayMark_steps_mono (evt : EventItem) (s : UIState) (k : StepKey)
    (h : stepGet s.demoSteps k = true) :
    stepGet (handleReplayMark evt s).demoSteps k = true := by
  unfold handleReplayMark
  split
  · exact markDemoStep_mono _ _ _ h
  · exact h

theorem handleSuccess_steps_mono (evt : EventItem) (s : UIState) (k : StepKey)
    (h : stepGet s.demoSteps k = true) :
    stepGet (handleSuccess evt s).demoSteps k = true := by
  unfold handleSuccess
  dsimp only
  split
  · split <;> split <;> exact markDemoStep_mono _ _ _ h
  · exact h

theorem onMessage_steps_mono (s : UIState) (m : RawMsg) (k : StepKey)
    (h : stepGet s.demoSteps k = true) :
    stepGet (onMessage s m).demoSteps k = true := by
  unfold onMessage
  split
  · exact handleSuccess_steps_mono _ _ _
      (handleReplayMark_steps_mono _ _ _
        (handleDlq_steps_mono _ _ _
          (handleFailMark_steps_mono _ _ _ h)))
  · exact h

theorem processMsgs_steps_mono (msgs : List RawMsg) (s : UIState) (k : StepKey)
    (h : stepGet s.demoSteps k = true) :
    stepGet (processMsgs s msgs).demoSteps k = true := by
  induction msgs generalizing s with
  | nil => exact h
  | cons m ms ih => exact ih (onMessage s m) (onMessage_steps_mono s m k h)

/-- C3: each of the four demo progress flags (fail, dlq, replay, success) is
monotonic: once it has been set true, delivering arbitrary further SSE
messages (unrelated types, duplicates, malformed payloads) never sets it back
to false within the lifetime of the derived state. -/
theorem claim3_step_flags_monotonic (s : UIState) (msgs : List RawMsg) (k : StepKey)
    (h : stepGet s.demoSteps k = true) :
    stepGet (processMsgs s msgs).demoSteps k = true :=
  processMsgs_steps_mono msgs s k h

/-- Witness for C3 at a concrete state and message list. -/
theorem claim3_step_flags_monotonic_witness :
    stepGet ({ initState with
        demoSteps := { fail := true, dlq := false, replay := false, success := false } }).demoSteps
      StepKey.fail = true ∧
    stepGet (processMsgs
        { initState with
          demoSteps := { fail := true, dlq := false, replay := false, success := false } }
        [some (JSONVal.jobj [("type", JSONVal.jstr "run.succeeded")]),
         none,
         some (JSONVal.jnum 7)]).demoSteps StepKey.fail = true :=
  ⟨rfl, claim3_step_flags_monotonic _ _ _ rfl⟩

/-! ## Event-log effects of the SSE handler -/

theorem handleFailMark_events (evt : EventItem) (s : UIState) :
    (handleFailMark evt s).events = s.events := by
  unfold handleFailMark
  split <;> rfl

theorem handleDlq_events (evt : EventItem) (s : UIState) :
    (handleDlq evt s).events = s.events := by
  unfold handleDlq
  dsimp only
  split
  · split <;> rfl
  · rfl

theorem handleReplayMark_events (evt : EventItem) (s : UIState) :
    (handleReplayMark evt s).events = s.events := by
  unfold handleReplayMark
  split <;> rfl

theorem handleSuccess_events (evt : EventItem) (s : UIState) :
    (handleSuccess evt s).events = s.events := by
  unfold handleSuccess
  dsimp only
  split
  · split <;> split <;> rfl
  · rfl

theorem onMessage_events (s : UIState) (m : RawMsg) :
    (onMessage s m).events = s.events ++ (toObjEvent m).toList := by
  unfold onMessage
  cases hm : toObjEvent m with
  | none => simp
  | some evt =>
      rw [handleSuccess_events, handleReplayMark_events, handleDlq_events, handleFailMark_events]
      simp [appendEvt]

theorem processMsgs_events (msgs : List RawMsg) (s : UIState) :
    (processMsgs s msgs).events = s.events ++ msgs.filterMap toObjEvent := by
  induction msgs generalizing s with
  | nil => simp [processMsgs]
  | cons m ms ih =>
      show (processMsgs (onMessage s m) ms).events = _
      rw [ih, onMessage_events]
      cases hm : toObjEvent m <;> simp [List.filterMap_cons, hm]

/-- C7: an inbound stream message whose payload is not a JSON object
(unparseable, or parsed to a number, string, boolean, null or array) leaves
the whole component state - in particular the Event Log - unchanged and is
not an error, while object messages are appended in arrival order. -/
theorem claim7_malformed_payload_ignored (s : UIState) (m : RawMsg) (msgs : List RawMsg)
    (hbad : toObjEvent m = none) :
    onMessage s m = s ∧
    (processMsgs s msgs).events = s.events ++ msgs.filterMap toObjEvent := by
  constructor
  · unfold onMessage
    rw [hbad]
  · exact processMsgs_events msgs s

/-- Witness for C7: a numeric payload is discarded, and a mixed batch only
appends its object members. -/
theorem claim7_malformed_payload_ignored_witness :
    toObjEvent (some (JSONVal.jnum 3)) = none ∧
    (onMessage initState (some (JSONVal.jnum 3)) = initState ∧
      (processMsgs initState
          [some (JSONVal.jnum 3),
           some (JSONVal.jobj [("type", JSONVal.jstr "run.started")]),
           none,
           some (JSONVal.jarr []),
           some (JSONVal.jobj [("type", JSONVal.jstr "run.succeeded")])]).events =
        initState.events ++
          [some (JSONVal.jnum 3),
           some (JSONVal.jobj [("type", JSONVal.jstr "run.started")]),
           none,
           some (JSONVal.jarr []),
           some (JSONVal.jobj [("type", JSONVal.jstr "run.succeeded")])].filterMap toObjEvent) :=
  ⟨rfl, claim7_malformed_payload_ignored initState (some (JSONVal.jnum 3)) _ rfl⟩

/-! ## Replay and DLQ-fetch failure paths -/

/-- C9: when the replay request fails (non-OK response or thrown network
exception) `replayRunFix` returns normally having changed only the status
line: no synthetic `ui.replay.fix_applied` event is appended, the replay step
flag is untouched, and the demo mode (hence a running orchestration) is
untouched, so the orchestrator proceeds to the wait-for-success step. -/
theorem claim9_replay_failure_returns_normally (s : UIState) (rid : String) (now : Int)
    (code : Nat) (body : String) (msg : Option String) :
    ((replayRunFix s rid now (ReplayOutcome.notOk code body)).events = s.events ∧
     (replayRunFix s rid now (ReplayOutcome.notOk code body)).demoSteps = s.demoSteps ∧
     (replayRunFix s rid now (ReplayOutcome.notOk code body)).demoMode = s.demoMode) ∧
    ((replayRunFix s rid now (ReplayOutcome.netError msg)).events = s.events ∧
     (replayRunFix s rid now (ReplayOutcome.netError msg)).demoSteps = s.demoSteps ∧
     (replayRunFix s rid now (ReplayOutcome.netError msg)).demoMode = s.demoMode) := by
  unfold replayRunFix
  split <;> exact ⟨⟨rfl, rfl, rfl⟩, ⟨rfl, rfl, rfl⟩⟩

/-- C10: an unsuccessful DLQ fetch - non-OK response or thrown network
exception - always clears the cached Dead-Letter Record (sets it to `none`)
and returns `false`, destroying any previously cached record. -/
theorem claim10_failed_fetch_clears_cache (s : UIState) (rid : String)
    (code : Nat) (body : String) (hrid : rid ≠ "") :
    (fetchDlq s rid (FetchOutcome.notOk code body)).1.dlqRecord = none ∧
    (fetchDlq s rid (FetchOutcome.notOk code body)).2 = false ∧
    (fetchDlq s rid FetchOutcome.netError).1.dlqRecord = none ∧
    (fetchDlq s rid FetchOutcome.netError).2 = false := by
  unfold fetchDlq
  rw [show (rid == "") = false from beq_eq_false_iff_ne.mpr hrid]
  exact ⟨rfl, rfl, rfl, rfl⟩

/-- Witness for C10: a failed manual re-fetch destroys a record that was
cached beforehand. -/
theorem claim10_failed_fetch_clears_cache_witness :
    ("r1" : String) ≠ "" ∧
    ({ initState with dlqRecord := some [("reason", JSONVal.jstr "boom")] } : UIState).dlqRecord =
      some [("reason", JSONVal.jstr "boom")] ∧
    ((fetchDlq { initState with dlqRecord := some [("reason", JSONVal.jstr "boom")] } "r1"
        (FetchOutcome.notOk 404 "no dlq")).1.dlqRecord = none ∧
     (fetchDlq { initState with dlqRecord := some [("reason", JSONVal.jstr "boom")] } "r1"
        (FetchOutcome.notOk 404 "no dlq")).2 = false ∧
     (fetchDlq { initState with dlqRecord := some [("reason", JSONVal.jstr "boom")] } "r1"
        FetchOutcome.netError).1.dlqRecord = none ∧
     (fetchDlq { initState with dlqRecord := some [("reason", JSONVal.jstr "boom")] } "r1"
        FetchOutcome.netError).2 = false) :=
  ⟨by decide, rfl,
    claim10_failed_fetch_clears_cache _ "r1" 404 "no dlq" (by decide)⟩


/-! ## The bounded wait primitive -/

/-- C4: whenever the fail-fast predicate returns a non-empty message on the
very first tick, `waitFor` rejects with exactly that message and the
condition is evaluated zero times - even a condition that would be true
immediately is never observed. -/
theorem claim4_failfast_before_first_cond (cond : Nat → Bool) (timeoutMs tickMs : Nat)
    (ff : Nat → String) (h : ff 0 ≠ "") :
    waitFor cond timeoutMs tickMs ff = some (WaitOutcome.failFast (ff 0), 0) := by
  show waitForAux cond ff timeoutMs tickMs (timeoutMs / tickMs + 1 + 1) 0 = _
  rw [waitForAux]
  simp [h]

/-- Witness for C4: `cond` is constantly true, yet the call rejects with the
fail-fast message "x" without a single condition evaluation. -/
theorem claim4_failfast_before_first_cond_witness :
    ("x" : String) ≠ "" ∧
    waitFor (fun _ => true) 100 10 (fun _ => "x") = some (WaitOutcome.failFast "x", 0) :=
  ⟨by decide, claim4_failfast_before_first_cond (fun _ => true) 100 10 (fun _ => "x") (by decide)⟩

theorem waitForAux_step (cond : Nat → Bool) (ff : Nat → String) (T t fuel n : Nat)
    (hff : ff n = "") (hcond : cond n = false) (hT : ¬ n * t > T) :
    waitForAux cond ff T t (fuel + 1) n = waitForAux cond ff T t fuel (n + 1) := by
  rw [waitForAux]
  simp [hff, hcond, hT]

theorem waitForAux_timeout_reached (cond : Nat → Bool) (ff : Nat → String) (T t : Nat)
    (hc : ∀ n, n * t ≤ T + t → cond n = false)
    (hf : ∀ n, n * t ≤ T + t → ff n = "") :
    ∀ (fuel n : Nat), T + t < fuel * t + n * t → n * t ≤ T + t →
      ∃ k, waitForAux cond ff T t fuel n = some (WaitOutcome.timeout, k) := by
  intro fuel
  induction fuel with
  | zero =>
      intro n h1 h2
      rw [Nat.zero_mul, Nat.zero_add] at h1
      exact absurd h1 (Nat.not_lt.mpr h2)
  | succ fuel ih =>
      intro n h1 h2
      by_cases hT : n * t > T
      · refine ⟨n + 1, ?_⟩
        rw [waitForAux]
        simp [hf n h2, hc n h2, hT]
      · have hT2 : n * t ≤ T := Nat.not_lt.mp hT
        have hA : T + t < fuel * t + (n + 1) * t := by
          calc T + t < (fuel + 1) * t + n * t := h1
            _ = fuel * t + (n + 1) * t := by ring
        have hB : (n + 1) * t ≤ T + t := by
          calc (n + 1) * t = n * t + t := by ring
            _ ≤ T + t := Nat.add_le_add_right hT2 t
        obtain ⟨k, hk⟩ := ih (n + 1) hA hB
        exact ⟨k, (waitForAux_step cond ff T t fuel n (hf n h2) (hc n h2) hT).trans hk⟩

/-- C5: when the condition never becomes true and the fail-fast predicate
never produces a message, `waitFor` rejects with the timeout error once
`timeoutMs` has elapsed (the loop evaluates both only on ticks `n` with
`n * tickMs ≤ timeoutMs + tickMs`); the timeout rejection carries the fixed message
"timeout", which no fail-fast rejection with a different message can carry;
and a condition that is true on the first evaluation (with no fail-fast
message) resolves immediately. -/
theorem claim5_timeout_and_immediate_resolve (T t : Nat) (ht : 1 ≤ t)
    (cond : Nat → Bool) (ff : Nat → String)
    (hc : ∀ n, n * t ≤ T + t → cond n = false) (hf : ∀ n, n * t ≤ T + t → ff n = "")
    (cond2 : Nat → Bool) (ff2 : Nat → String)
    (h2f : ff2 0 = "") (h2c : cond2 0 = true) :
    (∃ k, waitFor cond T t ff = some (WaitOutcome.timeout, k)) ∧
    waitFor cond2 T t ff2 = some (WaitOutcome.resolved, 1) ∧
    waitErrMsg WaitOutcome.timeout = some "timeout" ∧
    (∀ m, m ≠ "timeout" → waitErrMsg (WaitOutcome.failFast m) ≠ some "timeout") := by
  refine ⟨?_, ?_, rfl, ?_⟩
  · have h1 : T < (T / t + 1) * t :=
      (Nat.div_lt_iff_lt_mul ht).mp (Nat.lt_succ_self (T / t))
    have hA : T + t < (T / t + 2) * t + 0 * t := by
      calc T + t < (T / t + 1) * t + t := Nat.add_lt_add_right h1 t
        _ = (T / t + 2) * t + 0 * t := by ring
    have hB : 0 * t ≤ T + t := by
      rw [Nat.zero_mul]
      exact Nat.zero_le _
    exact waitForAux_timeout_reached cond ff T t hc hf (T / t + 2) 0 hA hB
  · show waitForAux cond2 ff2 T t (T / t + 1 + 1) 0 = _
    rw [waitForAux]
    simp [h2f, h2c]
  · intro m hm
    simp only [waitErrMsg, ne_eq, Option.some.injEq]
    exact hm

/-- Witness for C5 at concrete parameters: `waitFor(() => false, 100, 10)`
times out, `waitFor(() => true, 100, 10)` resolves at once. -/
theorem claim5_timeout_and_immediate_resolve_witness :
    (1 : Nat) ≤ 10 ∧
    ((∃ k, waitFor (fun _ => false) 100 10 (fun _ => "") = some (WaitOutcome.timeout, k)) ∧
     waitFor (fun _ => true) 100 10 (fun _ => "") = some (WaitOutcome.resolved, 1) ∧
     waitErrMsg WaitOutcome.timeout = some "timeout" ∧
     (∀ m, m ≠ "timeout" → waitErrMsg (WaitOutcome.failFast m) ≠ some "timeout")) :=
  ⟨by decide,
    claim5_timeout_and_immediate_resolve 100 10 (by decide) (fun _ => false) (fun _ => "")
      (fun _ _ => rfl) (fun _ _ => rfl) (fun _ => true) (fun _ => "") rfl rfl⟩

theorem waitForAux_reach (cond : Nat → Bool) (ff : Nat → String) (T t : Nat) :
    ∀ (n fuel : Nat), (∀ m, m < n → ff m = "" ∧ cond m = false ∧ ¬ m * t > T) →
      waitForAux cond ff T t (fuel + n) 0 = waitForAux cond ff T t fuel n := by
  intro n
  induction n with
  | zero => intro fuel h; rfl
  | succ n ih =>
      intro fuel h
      have h1 : waitForAux cond ff T t (fuel + 1 + n) 0 = waitForAux cond ff T t (fuel + 1) n :=
        ih (fuel + 1) (fun m hm => h m (by omega))
      have h2 : fuel + (n + 1) = fuel + 1 + n := by omega
      rw [h2, h1]
      exact waitForAux_step cond ff T t fuel n (h n (by omega)).1 (h n (by omega)).2.1
        (h n (by omega)).2.2

/-- C8: during the wait-for-success step, as soon as the event log contains a
DLQ signal tagged `replay_seq = 1` (on tick `n`, the first tick on which
either trigger holds), the wait rejects with the descriptive fail-fast
message at that very tick rather than waiting out the 90 s timeout, and the
message differs from the timeout error and is non-empty. -/
theorem claim8_failfast_on_repeat_dlq (logs : Nat → List EventItem) (n : Nat)
    (hn : n * 500 ≤ 90000)
    (hnosucc : ∀ m, m < n → hasEvent (logs m) "run.succeeded" = false)
    (hnodlq : ∀ m, m < n → hasDlqForReplaySeq (logs m) 1 = false)
    (hdlq : hasDlqForReplaySeq (logs n) 1 = true) :
    demoSuccessWait logs = some (WaitOutcome.failFast demoFailFastMsg, n) ∧
    demoFailFastMsg ≠ "timeout" ∧ demoFailFastMsg ≠ "" := by
  refine ⟨?_, by decide, by decide⟩
  unfold demoSuccessWait waitFor
  have hfuel : 90000 / 500 + 2 = 182 - n + n := by omega
  rw [hfuel]
  rw [waitForAux_reach _ _ _ _ n (182 - n)
    (fun m hm => ⟨by simp [hnodlq m hm], hnosucc m hm, by omega⟩)]
  obtain ⟨f, hf⟩ : ∃ f, 182 - n = f + 1 := ⟨181 - n, by omega⟩
  have hmsg : (demoFailFastMsg != "") = true := by decide
  rw [hf, waitForAux]
  simp [hdlq, hmsg]

/-- Witness for C8: the repeat-DLQ event is present from the first tick, and
the wait rejects at tick 0 with the descriptive message. -/
theorem claim8_failfast_on_repeat_dlq_witness :
    hasDlqForReplaySeq [[("type", JSONVal.jstr "run.dlq"), ("replay_seq", JSONVal.jnum 1)]] 1
      = true ∧
    (demoSuccessWait
        (fun _ => [[("type", JSONVal.jstr "run.dlq"), ("replay_seq", JSONVal.jnum 1)]]) =
      some (WaitOutcome.failFast demoFailFastMsg, 0) ∧
     demoFailFastMsg ≠ "timeout" ∧ demoFailFastMsg ≠ "") :=
  ⟨by decide,
    claim8_failfast_on_repeat_dlq
      (fun _ => [[("type", JSONVal.jstr "run.dlq"), ("replay_seq", JSONVal.jnum 1)]]) 0
      (by decide)
      (fun m hm => absurd hm (Nat.not_lt_zero m))
      (fun m hm => absurd hm (Nat.not_lt_zero m))
      (by decide)⟩

/-! ## Auto-fetch deduplication -/

theorem appendEvt_auto (evt : EventItem) (s : UIState) :
    (appendEvt evt s).dlqAutoFetched = s.dlqAutoFetched ∧
    (appendEvt evt s).autoFetchCount = s.autoFetchCount :=
  ⟨rfl, rfl⟩

theorem handleFailMark_auto (evt : EventItem) (s : UIState) :
    (handleFailMark evt s).dlqAutoFetched = s.dlqAutoFetched ∧
    (handleFailMark evt s).autoFetchCount = s.autoFetchCount := by
  unfold handleFailMark
  split <;> exact ⟨rfl, rfl⟩

theorem handleReplayMark_auto (evt : EventItem) (s : UIState) :
    (handleReplayMark evt s).dlqAutoFetched = s.dlqAutoFetched ∧
    (handleReplayMark evt s).autoFetchCount = s.autoFetchCount := by
  unfold handleReplayMark
  split <;> exact ⟨rfl, rfl⟩

theorem handleSuccess_auto (evt : EventItem) (s : UIState) :
    (handleSuccess evt s).dlqAutoFetched = s.dlqAutoFetched ∧
    (handleSuccess evt s).autoFetchCount = s.autoFetchCount := by
  unfold handleSuccess
  dsimp only
  split
  · split <;> split <;> exact ⟨rfl, rfl⟩
  · exact ⟨rfl, rfl⟩

theorem handleDlq_auto_done (evt : EventItem) (s : UIState) (h : s.dlqAutoFetched = true) :
    (handleDlq evt s).dlqAutoFetched = true ∧
    (handleDlq evt s).autoFetchCount = s.autoFetchCount := by
  unfold handleDlq
  dsimp only
  split
  · rw [h]
    simp
  · exact ⟨h, rfl⟩

theorem handleDlq_auto_fresh_sig (evt : EventItem) (s : UIState)
    (h : s.dlqAutoFetched = false) (hsig : isDlqSignal evt = true) :
    (handleDlq evt s).dlqAutoFetched = true ∧
    (handleDlq evt s).autoFetchCount = s.autoFetchCount + 1 := by
  unfold handleDlq
  dsimp only
  rw [if_pos hsig, if_neg (by rw [h]; exact Bool.false_ne_true)]
  exact ⟨rfl, rfl⟩

theorem handleDlq_auto_nosig (evt : EventItem) (s : UIState) (hsig : isDlqSignal evt = false) :
    handleDlq evt s = s := by
  unfold handleDlq
  dsimp only
  rw [if_neg (by rw [hsig]; exact Bool.false_ne_true)]

theorem onMessage_auto_done (s : UIState) (m : RawMsg) (h : s.dlqAutoFetched = true) :
    (onMessage s m).dlqAutoFetched = true ∧
    (onMessage s m).autoFetchCount = s.autoFetchCount := by
  unfold onMessage
  cases hm : toObjEvent m with
  | none => exact ⟨h, rfl⟩
  | some evt =>
      have h1 := appendEvt_auto evt s
      have h2 := handleDlq_auto_done evt (handleFailMark evt (appendEvt evt s))
        (((handleFailMark_auto evt (appendEvt evt s)).1.trans h1.1).trans h)
      have h3 := handleReplayMark_auto evt (handleDlq evt (handleFailMark evt (appendEvt evt s)))
      have h4 := handleSuccess_auto evt
        (handleReplayMark evt (handleDlq evt (handleFailMark evt (appendEvt evt s))))
      refine ⟨(h4.1.trans h3.1).trans h2.1, ?_⟩
      rw [h4.2, h3.2, h2.2, (handleFailMark_auto evt (appendEvt evt s)).2, h1.2]

theorem onMessage_auto_fresh (s : UIState) (m : RawMsg) (h : s.dlqAutoFetched = false) :
    (onMessage s m).dlqAutoFetched = dlqSignalMsg m ∧
    (onMessage s m).autoFetchCount =
      s.autoFetchCount + (if dlqSignalMsg m then 1 else 0) := by
  cases hm : toObjEvent m with
  | none =>
      have hd : dlqSignalMsg m = false := by
        unfold dlqSignalMsg
        rw [hm]
      have ho : onMessage s m = s := by
        unfold onMessage
        rw [hm]
      rw [ho, hd]
      exact ⟨h, by simp⟩
  | some evt =>
      have hd : dlqSignalMsg m = isDlqSignal evt := by
        unfold dlqSignalMsg
        rw [hm]
      have ho : onMessage s m =
          handleSuccess evt
            (handleReplayMark evt (handleDlq evt (handleFailMark evt (appendEvt evt s)))) := by
        unfold onMessage
        rw [hm]
      rw [ho, hd]
      have h1 := appendEvt_auto evt s
      have hff := handleFailMark_auto evt (appendEvt evt s)
      have hpre : (handleFailMark evt (appendEvt evt s)).dlqAutoFetched = false :=
        (hff.1.trans h1.1).trans h
      have hcnt : (handleFailMark evt (appendEvt evt s)).autoFetchCount = s.autoFetchCount :=
        hff.2.trans h1.2
      have h3 := handleReplayMark_auto evt (handleDlq evt (handleFailMark evt (appendEvt evt s)))
      have h4 := handleSuccess_auto evt
        (handleReplayMark evt (handleDlq evt (handleFailMark evt (appendEvt evt s))))
      cases hsig : isDlqSignal evt with
      | true =>
          have h2 := handleDlq_auto_fresh_sig evt (handleFailMark evt (appendEvt evt s)) hpre hsig
          refine ⟨(h4.1.trans h3.1).trans h2.1, ?_⟩
          rw [h4.2, h3.2, h2.2, hcnt]
          simp
      | false =>
          have h2 := handleDlq_auto_nosig evt (handleFailMark evt (appendEvt evt s)) hsig
          refine ⟨?_, ?_⟩
          · rw [h4.1, h3.1, h2, hpre]
          · rw [h4.2, h3.2, h2, hcnt]
            simp

theorem processMsgs_auto_done (msgs : List RawMsg) (s : UIState) (h : s.dlqAutoFetched = true) :
    (processMsgs s msgs).dlqAutoFetched = true ∧
    (processMsgs s msgs).autoFetchCount = s.autoFetchCount := by
  induction msgs generalizing s with
  | nil => exact ⟨h, rfl⟩
  | cons m ms ih =>
      have h1 := onMessage_auto_done s m h
      have h2 := ih (onMessage s m) h1.1
      exact ⟨h2.1, h2.2.trans h1.2⟩

theorem processMsgs_auto_fresh (msgs : List RawMsg) (s : UIState)
    (h : s.dlqAutoFetched = false) :
    (processMsgs s msgs).autoFetchCount =
      s.autoFetchCount + (if msgs.any dlqSignalMsg then 1 else 0) := by
  induction msgs generalizing s with
  | nil => simp [processMsgs]
  | cons m ms ih =>
      show (processMsgs (onMessage s m) ms).autoFetchCount = _
      have h1 := onMessage_auto_fresh s m h
      cases hsig : dlqSignalMsg m with
      | true =>
          rw [hsig] at h1
          have h2 := processMsgs_auto_done ms (onMessage s m) h1.1
          rw [h2.2, h1.2]
          simp [hsig]
      | false =>
          rw [hsig] at h1
          have h2 := ih (onMessage s m) h1.1
          rw [h2, h1.2]
          simp [hsig]

/-- C6: within one subscription lifetime the automatic DLQ fetch runs at most
once: starting from a fresh `connectSSE` (which clears the marker), the
number of automatic fetches fired while processing any message sequence is 1
if the sequence contains at least one dead-letter signal (of any of the
equivalent type names) and 0 otherwise; both `connectSSE` and `resetAll`
clear the already-auto-fetched marker. -/
theorem claim6_autofetch_at_most_once (s : UIState) (msgs : List RawMsg) :
    (processMsgs (connectSSE s) msgs).autoFetchCount =
      (connectSSE s).autoFetchCount + (if msgs.any dlqSignalMsg then 1 else 0) ∧
    (connectSSE s).dlqAutoFetched = false ∧
    (resetAll s).dlqAutoFetched = false :=
  ⟨processMsgs_auto_fresh msgs (connectSSE s) rfl, rfl, rfl⟩

/-! ## The step-3 failure wait and the missing generation guard -/

/-- C2 counterexample: `dlq.available` is one of the dead-letter signal
names (`isDlqSignal`), hence classified as a failure signal by the SSE
handler, yet the wait-for-failure condition used by `runTwoMinuteDemo`
(`hasAnyEvent(["run.attempt_failed", "run.failed", "run.dlq", "runs.dlq"])`)
evaluates false on a log whose only event has type `dlq.available`. -/
theorem claim2_counterexample :
    isDlqSignal [("type", JSONVal.jstr "dlq.available")] = true ∧
    demoFailWaitCond [[("type", JSONVal.jstr "dlq.available")]] = false :=
  ⟨by decide, by decide⟩

/-- C2 amended: the wait-for-failure condition evaluates true for every log
containing at least one event whose type is one of `run.attempt_failed`,
`run.failed`, `run.dlq`, `runs.dlq` (the list actually checked by the
orchestrator, which omits `dlq.available`). -/
theorem claim2_amended_fail_wait (log : List EventItem) (e : EventItem) (hmem : e ∈ log)
    (htype : eventType e = "run.attempt_failed" ∨ eventType e = "run.failed" ∨
      eventType e = "run.dlq" ∨ eventType e = "runs.dlq") :
    demoFailWaitCond log = true := by
  unfold demoFailWaitCond hasAnyEvent
  rw [List.any_eq_true]
  refine ⟨e, hmem, ?_⟩
  rcases htype with h | h | h | h <;> rw [h] <;> decide

/-- Witness for the amended C2 at a concrete log. -/
theorem claim2_amended_fail_wait_witness :
    ([("type", JSONVal.jstr "run.failed")] : EventItem) ∈
      ([[("type", JSONVal.jstr "run.failed")]] : List EventItem) ∧
    eventType [("type", JSONVal.jstr "run.failed")] = "run.failed" ∧
    demoFailWaitCond [[("type", JSONVal.jstr "run.failed")]] = true :=
  ⟨List.mem_singleton.mpr rfl, rfl,
    claim2_amended_fail_wait _ _ (List.mem_singleton.mpr rfl) (Or.inr (Or.inl rfl))⟩

/-- C1: the component state holds no generation marker, and the orchestrator
continuation that runs after a resolved wait performs no marker check, so a
stale orchestration does mutate state after a reset.  Concrete trace: the
demo starts (`demoStart`), the user resets (`resetAll`) while the step-4
DLQ wait is in flight; immediately after the reset the demo mode is `idle`,
the Dead-Letter Cache is empty and the `dlq` step flag is false, yet the
next tick of the stale step-4 condition (`demoDlqWaitCondEval`, whose direct
fetch for the stale run id succeeds) repopulates the Dead-Letter Cache and
resolves the wait, after which the orchestrator marks the `dlq` step - both
mutations land after the reset. -/
theorem claim1_stale_orchestration_mutates_after_reset :
    (resetAll (demoStart initState)).demoMode = DemoMode.idle ∧
    (resetAll (demoStart initState)).dlqRecord = none ∧
    (resetAll (demoStart initState)).demoSteps.dlq = false ∧
    (demoDlqWaitCondEval (resetAll (demoStart initState))
        (FetchOutcome.ok [("reason", JSONVal.jstr "boom")])).2 = true ∧
    (markStep (demoDlqWaitCondEval (resetAll (demoStart initState))
        (FetchOutcome.ok [("reason", JSONVal.jstr "boom")])).1 StepKey.dlq).dlqRecord =
      some [("reason", JSONVal.jstr "boom")] ∧
    (markStep (demoDlqWaitCondEval (resetAll (demoStart initState))
        (FetchOutcome.ok [("reason", JSONVal.jstr "boom")])).1 StepKey.dlq).demoSteps.dlq
      = true :=
  ⟨rfl, rfl, rfl, rfl, rfl, rfl⟩

end DriftQ
